import Mathlib

/-!
Verification development for the Mullvad VPN daemon core: the tunnel state
machine Disconnecting sub-protocol (talpid-core), the daemon supervisor
(mullvad-daemon), and the Linux DNS backend selection (talpid-core).
The Rust sources are embedded shallowly: pure control flow becomes Lean
functions, stateful handlers become functions from the daemon record to a
record of outputs, and fallible operations return Except.
-/

/-- Reason for entering the blocked state (talpid-types, tunnel.rs). -/
inductive BlockReason
  | AuthFailed (reason : Option String)
  | Ipv6Unavailable
  | SetSecurityPolicyError
  | StartTunnelError
  | NoMatchingRelay
deriving DecidableEq, Repr

/-- Action that will be taken after disconnection is complete
(talpid-types, tunnel.rs). -/
inductive ActionAfterDisconnect
  | Nothing
  | Block
  | Reconnect
deriving DecidableEq, Repr

/-- Event resulting from a transition to a new tunnel state
(talpid-types, tunnel.rs). -/
inductive TunnelStateTransition
  | Disconnected
  | Connecting
  | Connected
  | Disconnecting (action : ActionAfterDisconnect)
  | Blocked (reason : BlockReason)
deriving DecidableEq, Repr

/-- Translation of TunnelStateTransition.is_blocked (talpid-types, tunnel.rs). -/
def TunnelStateTransition.is_blocked : TunnelStateTransition → Bool
  | TunnelStateTransition.Blocked _ => true
  | _ => false

/-- Remote endpoint of a tunnel, kept opaque: only its identity matters to
the embedded control flow. -/
structure TunnelEndpoint where
  address : String
deriving DecidableEq, Repr

/-- Tunnel option block carried inside the tunnel parameters. Modelled from
the spec: the mullvad-types settings module is not under src; the spec lists
the OpenVPN mssfix and the enable-IPv6 flag as the tunnel options. -/
structure TunnelOptions where
  openvpn_mssfix : Option Nat
  enable_ipv6 : Bool
deriving DecidableEq, Repr

/-- Parameters used when connecting a tunnel, with the fields the daemon
fills in build_tunnel_parameters (mullvad-daemon, lib.rs). -/
structure TunnelParameters where
  endpoint : TunnelEndpoint
  options : TunnelOptions
  log_dir : Option String
  resource_dir : String
  username : String
  allow_lan : Bool
deriving DecidableEq, Repr

/-- Commands consumed by the tunnel state machine
(talpid-core, tunnel_state_machine). -/
inductive TunnelCommand
  | Connect (parameters : TunnelParameters)
  | Disconnect
  | Block (reason : BlockReason) (allow_lan : Bool)
  | AllowLan (allow_lan : Bool)
deriving DecidableEq, Repr

/-- Which state should be transitioned to after disconnection is complete
(talpid-core, disconnecting_state.rs). -/
inductive AfterDisconnect
  | Nothing
  | Block (reason : BlockReason) (allow_lan : Bool)
  | Reconnect (parameters : TunnelParameters)
deriving DecidableEq, Repr

/-- Translation of AfterDisconnect.action (talpid-core,
disconnecting_state.rs). -/
def AfterDisconnect.action : AfterDisconnect → ActionAfterDisconnect
  | AfterDisconnect.Nothing => ActionAfterDisconnect.Nothing
  | AfterDisconnect.Block _ _ => ActionAfterDisconnect.Block
  | AfterDisconnect.Reconnect _ => ActionAfterDisconnect.Reconnect

/-- Outcome of polling the command channel once while in Disconnecting:
either a command was received or the channel reported an error. The
not-ready case leaves handle_commands unreached, so it is not an event. -/
abbrev CommandEvent := Except Unit TunnelCommand

namespace DisconnectingState

/-- Core of DisconnectingState.handle_commands (talpid-core,
disconnecting_state.rs): how one polled command event updates the queued
after_disconnect intent. -/
def handle_command_event (after : AfterDisconnect) (event : CommandEvent) :
    AfterDisconnect :=
  match after with
  | AfterDisconnect.Nothing =>
    match event with
    | Except.ok (TunnelCommand.Connect parameters) =>
        AfterDisconnect.Reconnect parameters
    | Except.ok (TunnelCommand.Block reason allow_lan) =>
        AfterDisconnect.Block reason allow_lan
    | _ => AfterDisconnect.Nothing
  | AfterDisconnect.Block reason allow_lan =>
    match event with
    | Except.ok (TunnelCommand.Connect parameters) =>
        AfterDisconnect.Reconnect parameters
    | Except.ok TunnelCommand.Disconnect => AfterDisconnect.Nothing
    | Except.ok (TunnelCommand.Block new_reason new_allow_lan) =>
        AfterDisconnect.Block new_reason new_allow_lan
    | _ => AfterDisconnect.Block reason allow_lan
  | AfterDisconnect.Reconnect tunnel_parameters =>
    match event with
    | Except.ok (TunnelCommand.AllowLan allow_lan) =>
        AfterDisconnect.Reconnect { tunnel_parameters with allow_lan := allow_lan }
    | Except.ok (TunnelCommand.Connect parameters) =>
        AfterDisconnect.Reconnect parameters
    | Except.ok TunnelCommand.Disconnect => AfterDisconnect.Nothing
    | Except.error _ => AfterDisconnect.Nothing
    | Except.ok (TunnelCommand.Block reason allow_lan) =>
        AfterDisconnect.Block reason allow_lan

/-- Repeated application of handle_commands over the sequence of command
events polled while the state machine stays in Disconnecting. -/
def handle_commands (after : AfterDisconnect) (events : List CommandEvent) :
    AfterDisconnect :=
  events.foldl handle_command_event after

/-- State entered once the tunnel exit notification fires, abstracting the
enter functions of the successor states (talpid-core,
disconnecting_state.rs, after_disconnect). -/
inductive NextTunnelState
  | disconnected
  | blocked (reason : BlockReason) (allow_lan : Bool)
  | connecting (parameters : TunnelParameters)
deriving DecidableEq, Repr

/-- Translation of DisconnectingState.after_disconnect (talpid-core,
disconnecting_state.rs): which successor state is entered for each queued
intent. -/
def after_disconnect : AfterDisconnect → NextTunnelState
  | AfterDisconnect.Nothing => NextTunnelState.disconnected
  | AfterDisconnect.Block reason allow_lan =>
      NextTunnelState.blocked reason allow_lan
  | AfterDisconnect.Reconnect tunnel_parameters =>
      NextTunnelState.connecting tunnel_parameters

/-- Result of polling the tunnel exited oneshot channel. -/
inductive ExitPoll
  | notReady
  | ready
  | err
deriving DecidableEq, Repr

/-- Translation of DisconnectingState.handle_exit_event (talpid-core,
disconnecting_state.rs): none when the exit notification is not ready yet,
otherwise the successor state chosen by after_disconnect. -/
def handle_exit_event (poll : ExitPoll) (after : AfterDisconnect) :
    Option NextTunnelState :=
  match poll with
  | ExitPoll.notReady => none
  | ExitPoll.ready => some (after_disconnect after)
  | ExitPoll.err => some (after_disconnect after)

end DisconnectingState

/-- Target state of the client: Secured or Unsecured (mullvad-types,
states.rs, referenced from mullvad-daemon lib.rs). -/
inductive TargetState
  | Unsecured
  | Secured
deriving DecidableEq, Repr

/-- Execution state of the daemon (mullvad-daemon, lib.rs,
DaemonExecutionState). -/
inductive DaemonExecutionState
  | Running
  | Exiting
  | Finished
deriving DecidableEq, Repr

/-- Translation of DaemonExecutionState.shutdown (mullvad-daemon, lib.rs):
while Running, become Finished when the tunnel is Disconnected and Exiting
otherwise; Exiting and Finished are absorbing. -/
def DaemonExecutionState.shutdown (state : DaemonExecutionState)
    (tunnel_state : TunnelStateTransition) : DaemonExecutionState :=
  match state with
  | DaemonExecutionState.Running =>
    match tunnel_state with
    | TunnelStateTransition.Disconnected => DaemonExecutionState.Finished
    | _ => DaemonExecutionState.Exiting
  | DaemonExecutionState.Exiting => state
  | DaemonExecutionState.Finished => state

/-- Translation of DaemonExecutionState.disconnected (mullvad-daemon,
lib.rs): Exiting becomes Finished; Running and Finished are unchanged. -/
def DaemonExecutionState.disconnected : DaemonExecutionState →
    DaemonExecutionState
  | DaemonExecutionState.Exiting => DaemonExecutionState.Finished
  | DaemonExecutionState.Running => DaemonExecutionState.Running
  | DaemonExecutionState.Finished => DaemonExecutionState.Finished

/-- Translation of DaemonExecutionState.is_running (mullvad-daemon,
lib.rs). -/
def DaemonExecutionState.is_running : DaemonExecutionState → Bool
  | DaemonExecutionState.Running => true
  | DaemonExecutionState.Exiting => false
  | DaemonExecutionState.Finished => false

/-- Relay record, kept opaque: the daemon only stores and clears it. -/
structure Relay where
  hostname : String
deriving DecidableEq, Repr

/-- Relay settings held in the settings store. Modelled from the spec: the
mullvad-types relay_constraints module is not under src. The spec describes
either a fully specified custom endpoint or a constraint filter; the
embedding carries, for each variant, the outcome of the collaborator call
the daemon makes on it in connect_tunnel (custom endpoint resolution, or
relay selection returning a relay and an endpoint), so that the daemon
control flow can be followed faithfully. -/
inductive RelaySettings
  | CustomTunnelEndpoint (resolved : Option TunnelEndpoint)
  | Normal (selection : Option (Relay × TunnelEndpoint))
deriving DecidableEq, Repr

/-- Settings store. Modelled from the spec: the mullvad-types settings
module is not under src. Fields follow section 3 of the spec: optional
account token; relay constraints; allow-LAN flag; auto-connect flag;
enable-IPv6 flag; OpenVPN mssfix. -/
structure Settings where
  account_token : Option String
  relay_settings : RelaySettings
  allow_lan : Bool
  auto_connect : Bool
  enable_ipv6 : Bool
  openvpn_mssfix : Option Nat
deriving DecidableEq, Repr

/-- Modelled from the spec: accessor for the account token. -/
def Settings.get_account_token (s : Settings) : Option String :=
  s.account_token

/-- Modelled from the spec: accessor for the relay settings. -/
def Settings.get_relay_settings (s : Settings) : RelaySettings :=
  s.relay_settings

/-- Modelled from the spec: accessor for the allow-LAN flag. -/
def Settings.get_allow_lan (s : Settings) : Bool :=
  s.allow_lan

/-- Modelled from the spec: accessor for the auto-connect flag. -/
def Settings.get_auto_connect (s : Settings) : Bool :=
  s.auto_connect

/-- Modelled from the spec: the tunnel options handed to
build_tunnel_parameters. -/
def Settings.get_tunnel_options (s : Settings) : TunnelOptions :=
  { openvpn_mssfix := s.openvpn_mssfix, enable_ipv6 := s.enable_ipv6 }

/-- Modelled from the spec: a settings mutator returns a changed signal
(true iff the new value differs from the old); a real mutation is followed
by a durable write, whose outcome the caller passes in as saveOk, and on a
persistence failure the in-memory mutation is rolled back, so the mutator
returns an error and the settings value is unchanged. -/
def Settings.set_account_token (s : Settings) (saveOk : Bool)
    (account_token : Option String) : Except Unit (Settings × Bool) :=
  if account_token = s.account_token then Except.ok (s, false)
  else if saveOk then Except.ok ({ s with account_token := account_token }, true)
  else Except.error ()

/-- Modelled from the spec: relay settings update, with the same
changed-signal and rollback contract as the other mutators. The update
payload is embedded as the resulting relay settings value. -/
def Settings.update_relay_settings (s : Settings) (saveOk : Bool)
    (update : RelaySettings) : Except Unit (Settings × Bool) :=
  if update = s.relay_settings then Except.ok (s, false)
  else if saveOk then Except.ok ({ s with relay_settings := update }, true)
  else Except.error ()

/-- Modelled from the spec: allow-LAN mutator with the changed-signal and
rollback contract. -/
def Settings.set_allow_lan (s : Settings) (saveOk : Bool)
    (allow_lan : Bool) : Except Unit (Settings × Bool) :=
  if allow_lan = s.allow_lan then Except.ok (s, false)
  else if saveOk then Except.ok ({ s with allow_lan := allow_lan }, true)
  else Except.error ()

/-- Modelled from the spec: auto-connect mutator with the changed-signal
and rollback contract. -/
def Settings.set_auto_connect (s : Settings) (saveOk : Bool)
    (auto_connect : Bool) : Except Unit (Settings × Bool) :=
  if auto_connect = s.auto_connect then Except.ok (s, false)
  else if saveOk then Except.ok ({ s with auto_connect := auto_connect }, true)
  else Except.error ()

/-- Modelled from the spec: OpenVPN mssfix mutator with the changed-signal
and rollback contract. -/
def Settings.set_openvpn_mssfix (s : Settings) (saveOk : Bool)
    (mssfix : Option Nat) : Except Unit (Settings × Bool) :=
  if mssfix = s.openvpn_mssfix then Except.ok (s, false)
  else if saveOk then Except.ok ({ s with openvpn_mssfix := mssfix }, true)
  else Except.error ()

/-- Modelled from the spec: enable-IPv6 mutator with the changed-signal and
rollback contract. -/
def Settings.set_enable_ipv6 (s : Settings) (saveOk : Bool)
    (enable_ipv6 : Bool) : Except Unit (Settings × Bool) :=
  if enable_ipv6 = s.enable_ipv6 then Except.ok (s, false)
  else if saveOk then Except.ok ({ s with enable_ipv6 := enable_ipv6 }, true)
  else Except.error ()

/-- Mutable daemon fields the supervisor handlers read and write
(mullvad-daemon, lib.rs, struct Daemon), restricted to the fields the
embedded handlers touch. -/
structure Daemon where
  tunnel_state : TunnelStateTransition
  target_state : TargetState
  state : DaemonExecutionState
  settings : Settings
  current_relay : Option Relay
  log_dir : Option String
  resource_dir : String
deriving DecidableEq, Repr

deriving instance DecidableEq for Except

/-- Reply values delivered on the oneshot channels of the management
commands the embedding covers. -/
inductive Reply
  | unit
  | result (r : Except Unit Unit)
  | tunnelState (t : TunnelStateTransition)
  | settingsSnapshot (s : Settings)
deriving DecidableEq, Repr

/-- Observable outputs of one supervisor handler invocation: the updated
daemon fields, the tunnel commands sent, the replies delivered on oneshot
channels, the settings broadcasts, the new-state broadcasts, and the error
or info log lines emitted. -/
structure HandlerOut where
  daemon : Daemon
  cmds : List TunnelCommand
  replies : List Reply
  settings_broadcasts : List Settings
  state_broadcasts : List TunnelStateTransition
  logs : List String
deriving DecidableEq, Repr

/-- Handler outcome with no effects beyond the daemon fields. -/
def noEffects (d : Daemon) : HandlerOut :=
  { daemon := d, cmds := [], replies := [], settings_broadcasts := [],
    state_broadcasts := [], logs := [] }

/-- Translation of Daemon::build_tunnel_parameters (mullvad-daemon,
lib.rs). -/
def Daemon.build_tunnel_parameters (d : Daemon) (account_token : String)
    (endpoint : TunnelEndpoint) : TunnelParameters :=
  { endpoint := endpoint,
    options := d.settings.get_tunnel_options,
    log_dir := d.log_dir,
    resource_dir := d.resource_dir,
    username := account_token,
    allow_lan := d.settings.get_allow_lan }

/-- Translation of Daemon::connect_tunnel (mullvad-daemon, lib.rs): resolve
an endpoint from the relay settings (remembering the selected relay in the
Normal case), then send Connect, or send Block(NoMatchingRelay, allow_lan)
when resolution fails. -/
def Daemon.connect_tunnel (d : Daemon) (account_token : String) :
    Daemon × TunnelCommand :=
  match d.settings.get_relay_settings with
  | RelaySettings.CustomTunnelEndpoint resolved =>
    match resolved with
    | some endpoint =>
        (d, TunnelCommand.Connect (d.build_tunnel_parameters account_token endpoint))
    | none =>
        (d, TunnelCommand.Block BlockReason.NoMatchingRelay d.settings.get_allow_lan)
  | RelaySettings.Normal selection =>
    match selection with
    | some (relay, endpoint) =>
        ({ d with current_relay := some relay },
         TunnelCommand.Connect (d.build_tunnel_parameters account_token endpoint))
    | none =>
        (d, TunnelCommand.Block BlockReason.NoMatchingRelay d.settings.get_allow_lan)

/-- Ranking used to show that the self-call of set_target_state (with
Unsecured, from the Secured branch) terminates. -/
def TargetState.rank : TargetState → Nat
  | TargetState.Unsecured => 0
  | TargetState.Secured => 1

/-- Translation of Daemon::set_target_state (mullvad-daemon, lib.rs): when
the new state differs from the current target or the tunnel is blocked, set
the target and act on it; Secured with an account token connects, Secured
without a token reverts to Unsecured and returns an error, Unsecured
disconnects. Returns the daemon fields, the tunnel commands sent, and the
result value. -/
def Daemon.set_target_state (d : Daemon) (new_state : TargetState) :
    Daemon × List TunnelCommand × Except Unit Unit :=
  if new_state ≠ d.target_state ∨ d.tunnel_state.is_blocked then
    let d1 : Daemon := { d with target_state := new_state }
    match new_state with
    | TargetState.Secured =>
      match d1.settings.get_account_token with
      | some account_token =>
          let r := d1.connect_tunnel account_token
          (r.1, [r.2], Except.ok ())
      | none =>
        match d1.set_target_state TargetState.Unsecured with
        | (d2, cmds, Except.ok _) => (d2, cmds, Except.error ())
        | (d2, cmds, Except.error e) => (d2, cmds, Except.error e)
    | TargetState.Unsecured => (d1, [TunnelCommand.Disconnect], Except.ok ())
  else (d, [], Except.ok ())
termination_by new_state.rank
decreasing_by simp [TargetState.rank]

/-- Translation of Daemon::disconnect_tunnel (mullvad-daemon, lib.rs). -/
def Daemon.disconnect_tunnel : List TunnelCommand :=
  [TunnelCommand.Disconnect]

/-- Translation of Daemon::reconnect_tunnel (mullvad-daemon, lib.rs):
connect only when the target is Secured and an account token is present. -/
def Daemon.reconnect_tunnel (d : Daemon) : Daemon × List TunnelCommand :=
  if d.target_state = TargetState.Secured then
    match d.settings.get_account_token with
    | some account_token =>
        let r := d.connect_tunnel account_token
        (r.1, [r.2])
    | none => (d, [])
  else (d, [])

/-- Translation of Daemon::on_set_target_state (mullvad-daemon, lib.rs):
when running, apply set_target_state and reply with its result; otherwise
warn and reply Ok. -/
def Daemon.on_set_target_state (d : Daemon) (new_target_state : TargetState) :
    HandlerOut :=
  if d.state.is_running then
    match d.set_target_state new_target_state with
    | (d1, cmds, r) =>
      { (noEffects d1) with cmds := cmds, replies := [Reply.result r] }
  else
    { (noEffects d) with
      replies := [Reply.result (Except.ok ())],
      logs := ["Ignoring target state change request due to shutdown"] }

/-- Translation of Daemon::on_get_state (mullvad-daemon, lib.rs). -/
def Daemon.on_get_state (d : Daemon) : HandlerOut :=
  { (noEffects d) with replies := [Reply.tunnelState d.tunnel_state] }

/-- Translation of Daemon::on_get_settings (mullvad-daemon, lib.rs). -/
def Daemon.on_get_settings (d : Daemon) : HandlerOut :=
  { (noEffects d) with replies := [Reply.settingsSnapshot d.settings] }

/-- Translation of Daemon::on_set_account (mullvad-daemon, lib.rs): persist
the token; on success reply, and when the value changed broadcast the
settings and either revert to Unsecured (token cleared) or restart the
tunnel (token changed); on a persistence failure only log. -/
def Daemon.on_set_account (d : Daemon) (saveOk : Bool)
    (account_token : Option String) : HandlerOut :=
  let account_token_cleared := account_token.isNone
  match d.settings.set_account_token saveOk account_token with
  | Except.ok (s1, account_changed) =>
    let d1 : Daemon := { d with settings := s1 }
    if account_changed then
      if account_token_cleared then
        match d1.set_target_state TargetState.Unsecured with
        | (d2, cmds, _) =>
          { daemon := d2, cmds := cmds, replies := [Reply.unit],
            settings_broadcasts := [s1], state_broadcasts := [],
            logs := ["Disconnecting because account token was cleared"] }
      else
        match d1.reconnect_tunnel with
        | (d2, cmds) =>
          { daemon := d2, cmds := cmds, replies := [Reply.unit],
            settings_broadcasts := [s1], state_broadcasts := [],
            logs := ["Initiating tunnel restart because the account token changed"] }
    else
      { (noEffects d1) with replies := [Reply.unit] }
  | Except.error _ =>
    { (noEffects d) with logs := ["Unable to save settings"] }

/-- Translation of Daemon::on_update_relay_settings (mullvad-daemon,
lib.rs): persist; on success reply, and when changed broadcast the settings
and restart the tunnel; on a persistence failure only log. -/
def Daemon.on_update_relay_settings (d : Daemon) (saveOk : Bool)
    (update : RelaySettings) : HandlerOut :=
  match d.settings.update_relay_settings saveOk update with
  | Except.ok (s1, settings_changed) =>
    let d1 : Daemon := { d with settings := s1 }
    if settings_changed then
      match d1.reconnect_tunnel with
      | (d2, cmds) =>
        { daemon := d2, cmds := cmds, replies := [Reply.unit],
          settings_broadcasts := [s1], state_broadcasts := [],
          logs := ["Initiating tunnel restart because the relay settings changed"] }
    else
      { (noEffects d1) with replies := [Reply.unit] }
  | Except.error _ =>
    { (noEffects d) with logs := ["Unable to save settings"] }

/-- Translation of Daemon::on_set_allow_lan (mullvad-daemon, lib.rs):
persist; on success reply, and when changed broadcast the settings and
forward one AllowLan command; on a persistence failure only log. -/
def Daemon.on_set_allow_lan (d : Daemon) (saveOk : Bool) (allow_lan : Bool) :
    HandlerOut :=
  match d.settings.set_allow_lan saveOk allow_lan with
  | Except.ok (s1, settings_changed) =>
    let d1 : Daemon := { d with settings := s1 }
    if settings_changed then
      { daemon := d1, cmds := [TunnelCommand.AllowLan allow_lan],
        replies := [Reply.unit], settings_broadcasts := [s1],
        state_broadcasts := [], logs := [] }
    else
      { (noEffects d1) with replies := [Reply.unit] }
  | Except.error _ =>
    { (noEffects d) with logs := ["Unable to save settings"] }

/-- Translation of Daemon::on_set_auto_connect (mullvad-daemon, lib.rs):
persist; on success reply, and when changed broadcast the settings; on a
persistence failure only log. -/
def Daemon.on_set_auto_connect (d : Daemon) (saveOk : Bool)
    (auto_connect : Bool) : HandlerOut :=
  match d.settings.set_auto_connect saveOk auto_connect with
  | Except.ok (s1, settings_changed) =>
    let d1 : Daemon := { d with settings := s1 }
    if settings_changed then
      { daemon := d1, cmds := [], replies := [Reply.unit],
        settings_broadcasts := [s1], state_broadcasts := [], logs := [] }
    else
      { (noEffects d1) with replies := [Reply.unit] }
  | Except.error _ =>
    { (noEffects d) with logs := ["Unable to save settings"] }

/-- Translation of Daemon::on_set_openvpn_mssfix (mullvad-daemon, lib.rs):
persist; on success reply, and when changed broadcast the settings; on a
persistence failure only log. -/
def Daemon.on_set_openvpn_mssfix (d : Daemon) (saveOk : Bool)
    (mssfix : Option Nat) : HandlerOut :=
  match d.settings.set_openvpn_mssfix saveOk mssfix with
  | Except.ok (s1, settings_changed) =>
    let d1 : Daemon := { d with settings := s1 }
    if settings_changed then
      { daemon := d1, cmds := [], replies := [Reply.unit],
        settings_broadcasts := [s1], state_broadcasts := [], logs := [] }
    else
      { (noEffects d1) with replies := [Reply.unit] }
  | Except.error _ =>
    { (noEffects d) with logs := ["Unable to save settings"] }

/-- Translation of Daemon::on_set_enable_ipv6 (mullvad-daemon, lib.rs):
persist; on success reply, and when changed broadcast the settings and
restart the tunnel; on a persistence failure only log. -/
def Daemon.on_set_enable_ipv6 (d : Daemon) (saveOk : Bool)
    (enable_ipv6 : Bool) : HandlerOut :=
  match d.settings.set_enable_ipv6 saveOk enable_ipv6 with
  | Except.ok (s1, settings_changed) =>
    let d1 : Daemon := { d with settings := s1 }
    if settings_changed then
      match d1.reconnect_tunnel with
      | (d2, cmds) =>
        { daemon := d2, cmds := cmds, replies := [Reply.unit],
          settings_broadcasts := [s1], state_broadcasts := [],
          logs := ["Initiating tunnel restart because the enable IPv6 setting changed"] }
    else
      { (noEffects d1) with replies := [Reply.unit] }
  | Except.error _ =>
    { (noEffects d) with logs := ["Unable to save settings"] }

/-- Translation of Daemon::handle_trigger_shutdown_event (mullvad-daemon,
lib.rs): update the execution state from the observed tunnel state and send
a Disconnect command. -/
def Daemon.handle_trigger_shutdown_event (d : Daemon) : HandlerOut :=
  let d1 : Daemon := { d with state := d.state.shutdown d.tunnel_state }
  { (noEffects d1) with cmds := Daemon.disconnect_tunnel }

/-- Translation of Daemon::handle_tunnel_state_transition (mullvad-daemon,
lib.rs): on Disconnected, advance the execution state and clear the current
relay; on Blocked(AuthFailed) a reconnect timer thread is spawned, whose
synthesized command arrives later through the event queue and is therefore
not part of this handler output; always record the new tunnel state and
broadcast it. -/
def Daemon.handle_tunnel_state_transition (d : Daemon)
    (tunnel_state : TunnelStateTransition) : HandlerOut :=
  let d1 : Daemon :=
    match tunnel_state with
    | TunnelStateTransition.Disconnected =>
        { d with state := d.state.disconnected, current_relay := none }
    | _ => d
  let d2 : Daemon := { d1 with tunnel_state := tunnel_state }
  { (noEffects d2) with state_broadcasts := [tunnel_state] }

/-- Management commands covered by the embedding (mullvad-daemon,
management_interface). The remaining read-only commands (current location,
account data, relay locations, version queries) forward collaborator
futures and never touch the daemon fields. -/
inductive ManagementCommand
  | SetTargetState (state : TargetState)
  | GetState
  | SetAccount (account_token : Option String)
  | UpdateRelaySettings (update : RelaySettings)
  | SetAllowLan (allow_lan : Bool)
  | SetAutoConnect (auto_connect : Bool)
  | SetOpenVpnMssfix (mssfix : Option Nat)
  | SetEnableIpv6 (enable_ipv6 : Bool)
  | GetSettings
  | Shutdown
deriving DecidableEq, Repr

/-- Translation of Daemon::handle_management_interface_event
(mullvad-daemon, lib.rs): dispatch to the per-command handler. The saveOk
argument models the outcome of the durable settings write the mutators
perform. -/
def Daemon.handle_management_interface_event (d : Daemon) (saveOk : Bool) :
    ManagementCommand → HandlerOut
  | ManagementCommand.SetTargetState state => d.on_set_target_state state
  | ManagementCommand.GetState => d.on_get_state
  | ManagementCommand.SetAccount account_token => d.on_set_account saveOk account_token
  | ManagementCommand.UpdateRelaySettings update =>
      d.on_update_relay_settings saveOk update
  | ManagementCommand.SetAllowLan allow_lan => d.on_set_allow_lan saveOk allow_lan
  | ManagementCommand.SetAutoConnect auto_connect =>
      d.on_set_auto_connect saveOk auto_connect
  | ManagementCommand.SetOpenVpnMssfix mssfix => d.on_set_openvpn_mssfix saveOk mssfix
  | ManagementCommand.SetEnableIpv6 enable_ipv6 =>
      d.on_set_enable_ipv6 saveOk enable_ipv6
  | ManagementCommand.GetSettings => d.on_get_settings
  | ManagementCommand.Shutdown => d.handle_trigger_shutdown_event

/-- Events consumed by the daemon main loop (mullvad-daemon, lib.rs,
DaemonEvent). -/
inductive DaemonEvent
  | TunnelStateTransitionEvent (transition : TunnelStateTransition)
  | ManagementInterfaceEvent (command : ManagementCommand)
  | ManagementInterfaceExited
  | TriggerShutdown
deriving DecidableEq, Repr

/-- Translation of Daemon::handle_event (mullvad-daemon, lib.rs): the
management interface exiting is the only error; every other event is
handled by its handler. -/
def Daemon.handle_event (d : Daemon) (saveOk : Bool) :
    DaemonEvent → Except Unit HandlerOut
  | DaemonEvent.TunnelStateTransitionEvent transition =>
      Except.ok (d.handle_tunnel_state_transition transition)
  | DaemonEvent.ManagementInterfaceEvent command =>
      Except.ok (d.handle_management_interface_event saveOk command)
  | DaemonEvent.ManagementInterfaceExited => Except.error ()
  | DaemonEvent.TriggerShutdown => Except.ok d.handle_trigger_shutdown_event

/-- Translation of the while loop of Daemon::run (mullvad-daemon, lib.rs)
over a finite queue of events: handle each event in order, propagate a
fatal error, and break as soon as the execution state is Finished. Returns
the final daemon fields together with the events left unconsumed by the
break. -/
def Daemon.run_loop (saveOk : Bool) :
    Daemon → List DaemonEvent → Except Unit (Daemon × List DaemonEvent)
  | d, [] => Except.ok (d, [])
  | d, event :: rest =>
    match d.handle_event saveOk event with
    | Except.error e => Except.error e
    | Except.ok out =>
      if out.daemon.state = DaemonExecutionState.Finished then
        Except.ok (out.daemon, rest)
      else
        Daemon.run_loop saveOk out.daemon rest

/-- DNS backend choice on Linux (talpid-core, security/linux/dns/mod.rs,
enum DnsSettings). The payload manager handles are dropped; whether each
backend constructor succeeds is passed in as a flag, since the resolvconf
and static_resolv_conf submodules are external to the embedded control
flow. -/
inductive DnsSettings
  | Resolvconf
  | StaticResolvConf
deriving DecidableEq, Repr

/-- Translation of DnsSettings::with_detected_dns_manager (talpid-core,
security/linux/dns/mod.rs): try Resolvconf first, fall back to
StaticResolvConf, and fail when neither is available. -/
def DnsSettings.with_detected_dns_manager (resolvconfOk staticOk : Bool) :
    Except Unit DnsSettings :=
  if resolvconfOk then Except.ok DnsSettings.Resolvconf
  else if staticOk then Except.ok DnsSettings.StaticResolvConf
  else Except.error ()

/-- Translation of DnsSettings::new (talpid-core,
security/linux/dns/mod.rs): dispatch on the TALPID_DNS_MODULE environment
variable, given as none when absent (a value that is not valid unicode
behaves like an unrecognized string). -/
def DnsSettings.new (dns_module : Option String)
    (resolvconfOk staticOk : Bool) : Except Unit DnsSettings :=
  match dns_module with
  | some value =>
    if value = "static-file" then
      if staticOk then Except.ok DnsSettings.StaticResolvConf else Except.error ()
    else if value = "resolvconf" then
      if resolvconfOk then Except.ok DnsSettings.Resolvconf else Except.error ()
    else DnsSettings.with_detected_dns_manager resolvconfOk staticOk
  | none => DnsSettings.with_detected_dns_manager resolvconfOk staticOk

theorem handle_command_event_connect (after : AfterDisconnect)
    (p : TunnelParameters) :
    DisconnectingState.handle_command_event after
      (Except.ok (TunnelCommand.Connect p)) = AfterDisconnect.Reconnect p := by
  cases after <;> rfl

theorem handle_command_event_disconnect (after : AfterDisconnect) :
    DisconnectingState.handle_command_event after
      (Except.ok TunnelCommand.Disconnect) = AfterDisconnect.Nothing := by
  cases after <;> rfl

theorem handle_command_event_block (after : AfterDisconnect)
    (r : BlockReason) (a : Bool) :
    DisconnectingState.handle_command_event after
      (Except.ok (TunnelCommand.Block r a)) = AfterDisconnect.Block r a := by
  cases after <;> rfl

theorem handle_commands_append (after : AfterDisconnect)
    (events : List CommandEvent) (event : CommandEvent) :
    DisconnectingState.handle_commands after (events ++ [event]) =
      DisconnectingState.handle_command_event
        (DisconnectingState.handle_commands after events) event := by
  simp [DisconnectingState.handle_commands, List.foldl_append]

/-- C1: while the tunnel state machine is in Disconnecting, the queued
intent tracks the commands received so that the last command before the
tunnel-exit event wins: Connect(p) sets the intent to Reconnect(p) over any
prior intent, Disconnect downgrades Block and Reconnect intents to Nothing,
Block(r,a) overrides Nothing and Reconnect intents, and a channel error
while the intent is Reconnect behaves like Disconnect; consequently, over
any event sequence, a final Connect, Disconnect or Block command determines
the final intent. -/
theorem c1_disconnecting_last_command_wins (after : AfterDisconnect)
    (p : TunnelParameters) (r : BlockReason) (a : Bool)
    (events : List CommandEvent) :
    DisconnectingState.handle_command_event after
      (Except.ok (TunnelCommand.Connect p)) = AfterDisconnect.Reconnect p ∧
    DisconnectingState.handle_command_event (AfterDisconnect.Block r a)
      (Except.ok TunnelCommand.Disconnect) = AfterDisconnect.Nothing ∧
    DisconnectingState.handle_command_event (AfterDisconnect.Reconnect p)
      (Except.ok TunnelCommand.Disconnect) = AfterDisconnect.Nothing ∧
    DisconnectingState.handle_command_event AfterDisconnect.Nothing
      (Except.ok (TunnelCommand.Block r a)) = AfterDisconnect.Block r a ∧
    DisconnectingState.handle_command_event (AfterDisconnect.Reconnect p)
      (Except.ok (TunnelCommand.Block r a)) = AfterDisconnect.Block r a ∧
    DisconnectingState.handle_command_event (AfterDisconnect.Reconnect p)
      (Except.error ()) = AfterDisconnect.Nothing ∧
    DisconnectingState.handle_commands after
      (events ++ [Except.ok (TunnelCommand.Connect p)]) =
        AfterDisconnect.Reconnect p ∧
    DisconnectingState.handle_commands after
      (events ++ [Except.ok TunnelCommand.Disconnect]) =
        AfterDisconnect.Nothing ∧
    DisconnectingState.handle_commands after
      (events ++ [Except.ok (TunnelCommand.Block r a)]) =
        AfterDisconnect.Block r a := by
  refine ⟨handle_command_event_connect after p, rfl, rfl, rfl, rfl, rfl, ?_, ?_, ?_⟩
  · rw [handle_commands_append]
    exact handle_command_event_connect _ p
  · rw [handle_commands_append]
    exact handle_command_event_disconnect _
  · rw [handle_commands_append]
    exact handle_command_event_block _ r a

/-- C6: when the tunnel-exit notification is observed while the state
machine is in Disconnecting, the machine enters the target state of the
queued intent: Disconnected for Nothing, Blocked(reason, allow_lan) for
Block(reason, allow_lan), and Connecting(params) for Reconnect(params). -/
theorem c6_exit_event_enters_intent_target (after : AfterDisconnect)
    (r : BlockReason) (a : Bool) (p : TunnelParameters) :
    DisconnectingState.handle_exit_event DisconnectingState.ExitPoll.ready after =
      some (DisconnectingState.after_disconnect after) ∧
    DisconnectingState.handle_exit_event DisconnectingState.ExitPoll.err after =
      some (DisconnectingState.after_disconnect after) ∧
    DisconnectingState.after_disconnect AfterDisconnect.Nothing =
      DisconnectingState.NextTunnelState.disconnected ∧
    DisconnectingState.after_disconnect (AfterDisconnect.Block r a) =
      DisconnectingState.NextTunnelState.blocked r a ∧
    DisconnectingState.after_disconnect (AfterDisconnect.Reconnect p) =
      DisconnectingState.NextTunnelState.connecting p :=
  ⟨rfl, rfl, rfl, rfl, rfl⟩

/-- C10: while the state machine is in Disconnecting with queued intent
Block(reason, allow_lan), an AllowLan(x) command leaves the queued intent
unchanged, so the Blocked state entered on exit still carries the old
allow_lan flag. -/
theorem c10_allow_lan_ignored_for_block_intent (r : BlockReason)
    (a x : Bool) :
    DisconnectingState.handle_command_event (AfterDisconnect.Block r a)
      (Except.ok (TunnelCommand.AllowLan x)) = AfterDisconnect.Block r a ∧
    DisconnectingState.after_disconnect (AfterDisconnect.Block r a) =
      DisconnectingState.NextTunnelState.blocked r a :=
  ⟨rfl, rfl⟩

/-- Concrete relay used by the witness evaluations. -/
def sampleRelay : Relay := { hostname := "se9-wireguard" }

/-- Concrete endpoint used by the witness evaluations. -/
def sampleEndpoint : TunnelEndpoint := { address := "185.65.132.1:443" }

/-- Concrete settings value used by the witness evaluations. -/
def sampleSettings : Settings :=
  { account_token := some "1234567890",
    relay_settings := RelaySettings.Normal (some (sampleRelay, sampleEndpoint)),
    allow_lan := false,
    auto_connect := false,
    enable_ipv6 := false,
    openvpn_mssfix := none }

/-- Concrete daemon value used by the witness evaluations: running, target
Secured, tunnel Connected. -/
def sampleDaemon : Daemon :=
  { tunnel_state := TunnelStateTransition.Connected,
    target_state := TargetState.Secured,
    state := DaemonExecutionState.Running,
    settings := sampleSettings,
    current_relay := some sampleRelay,
    log_dir := none,
    resource_dir := "/opt/mullvad" }

/-- Concrete daemon value whose execution state is Exiting. -/
def sampleExiting : Daemon :=
  { sampleDaemon with state := DaemonExecutionState.Exiting }

theorem run_loop_leftover_finished (saveOk : Bool) :
    ∀ (events : List DaemonEvent) (d dfin : Daemon) (rem : List DaemonEvent),
      Daemon.run_loop saveOk d events = Except.ok (dfin, rem) → rem ≠ [] →
      dfin.state = DaemonExecutionState.Finished := by
  intro events
  induction events with
  | nil =>
    intro d dfin rem h hne
    simp [Daemon.run_loop] at h
    exact absurd h.2 hne
  | cons e rest ih =>
    intro d dfin rem h hne
    cases hev : d.handle_event saveOk e with
    | error u => simp [Daemon.run_loop, hev] at h
    | ok out =>
      by_cases hf : out.daemon.state = DaemonExecutionState.Finished
      · simp [Daemon.run_loop, hev, hf] at h
        rw [← h.1]
        exact hf
      · simp [Daemon.run_loop, hev, hf] at h
        exact ih out.daemon dfin rem h hne

/-- C2: on TriggerShutdown (or the Shutdown command) the execution state
moves from Running to Finished when the tunnel is Disconnected and to
Exiting for every other tunnel state, and a Disconnect command is sent;
a Disconnected transition observed while Exiting makes the execution state
Finished; and the main loop stops consuming events exactly when the
execution state is Finished. -/
theorem c2_shutdown_drives_finish (d : Daemon) (saveOk : Bool)
    (act : ActionAfterDisconnect) (rsn : BlockReason) (e : DaemonEvent)
    (rest events : List DaemonEvent) (out : HandlerOut) (dfin : Daemon)
    (rem : List DaemonEvent) :
    DaemonExecutionState.Running.shutdown TunnelStateTransition.Disconnected =
      DaemonExecutionState.Finished ∧
    DaemonExecutionState.Running.shutdown TunnelStateTransition.Connecting =
      DaemonExecutionState.Exiting ∧
    DaemonExecutionState.Running.shutdown TunnelStateTransition.Connected =
      DaemonExecutionState.Exiting ∧
    DaemonExecutionState.Running.shutdown
      (TunnelStateTransition.Disconnecting act) = DaemonExecutionState.Exiting ∧
    DaemonExecutionState.Running.shutdown (TunnelStateTransition.Blocked rsn) =
      DaemonExecutionState.Exiting ∧
    d.handle_trigger_shutdown_event.cmds = [TunnelCommand.Disconnect] ∧
    d.handle_trigger_shutdown_event.daemon.state =
      d.state.shutdown d.tunnel_state ∧
    d.handle_management_interface_event saveOk ManagementCommand.Shutdown =
      d.handle_trigger_shutdown_event ∧
    (d.state = DaemonExecutionState.Exiting →
      (d.handle_tunnel_state_transition
        TunnelStateTransition.Disconnected).daemon.state =
          DaemonExecutionState.Finished) ∧
    (d.handle_event saveOk e = Except.ok out →
      out.daemon.state = DaemonExecutionState.Finished →
      Daemon.run_loop saveOk d (e :: rest) = Except.ok (out.daemon, rest)) ∧
    (Daemon.run_loop saveOk d events = Except.ok (dfin, rem) → rem ≠ [] →
      dfin.state = DaemonExecutionState.Finished) := by
  refine ⟨rfl, rfl, rfl, rfl, rfl, rfl, rfl, rfl, ?_, ?_, ?_⟩
  · intro h
    simp [Daemon.handle_tunnel_state_transition, noEffects, h,
      DaemonExecutionState.disconnected]
  · intro h1 h2
    simp [Daemon.run_loop, h1, h2]
  · exact run_loop_leftover_finished saveOk events d dfin rem

/-- Witness for C2 at a concrete daemon: a Disconnected transition while
Exiting yields Finished, and the loop then breaks leaving the remaining
events unconsumed. -/
theorem c2_shutdown_drives_finish_witness :
    sampleExiting.state = DaemonExecutionState.Exiting ∧
    (sampleExiting.handle_tunnel_state_transition
      TunnelStateTransition.Disconnected).daemon.state =
        DaemonExecutionState.Finished ∧
    Daemon.run_loop true sampleExiting
      [DaemonEvent.TunnelStateTransitionEvent TunnelStateTransition.Disconnected,
       DaemonEvent.TriggerShutdown] =
      Except.ok
        ((sampleExiting.handle_tunnel_state_transition
          TunnelStateTransition.Disconnected).daemon,
         [DaemonEvent.TriggerShutdown]) := by
  refine ⟨rfl, ?_, ?_⟩
  · exact (c2_shutdown_drives_finish sampleExiting true
      ActionAfterDisconnect.Nothing BlockReason.Ipv6Unavailable
      DaemonEvent.TriggerShutdown [] [] (noEffects sampleExiting)
      sampleExiting []).2.2.2.2.2.2.2.2.1 rfl
  · exact (c2_shutdown_drives_finish sampleExiting true
      ActionAfterDisconnect.Nothing BlockReason.Ipv6Unavailable
      (DaemonEvent.TunnelStateTransitionEvent TunnelStateTransition.Disconnected)
      [DaemonEvent.TriggerShutdown] []
      (sampleExiting.handle_tunnel_state_transition
        TunnelStateTransition.Disconnected)
      sampleExiting []).2.2.2.2.2.2.2.2.2.1 rfl (by decide)

/-- C7: applying SetTargetState(Secured) while the daemon is Running, the
target is already Secured and the tunnel is not Blocked is a no-op: the
daemon fields (target state, settings, current relay) are unchanged, no
tunnel command is sent, and the reply is Ok. -/
theorem c7_set_target_secured_idempotent (d : Daemon)
    (h1 : d.state = DaemonExecutionState.Running)
    (h2 : d.target_state = TargetState.Secured)
    (h3 : d.tunnel_state.is_blocked = false) :
    d.on_set_target_state TargetState.Secured =
      { (noEffects d) with replies := [Reply.result (Except.ok ())] } := by
  rw [Daemon.on_set_target_state, h1]
  rw [Daemon.set_target_state, h2, h3]
  simp [noEffects, DaemonExecutionState.is_running]

/-- Witness for C7 at a concrete daemon. -/
theorem c7_set_target_secured_idempotent_witness :
    sampleDaemon.state = DaemonExecutionState.Running ∧
    sampleDaemon.target_state = TargetState.Secured ∧
    sampleDaemon.tunnel_state.is_blocked = false ∧
    sampleDaemon.on_set_target_state TargetState.Secured =
      { (noEffects sampleDaemon) with
        replies := [Reply.result (Except.ok ())] } :=
  ⟨rfl, rfl, rfl, c7_set_target_secured_idempotent sampleDaemon rfl rfl rfl⟩

/-- Concrete daemon value with target Unsecured and no account token. -/
def sampleNoToken : Daemon :=
  { sampleDaemon with
    target_state := TargetState.Unsecured,
    settings := { sampleSettings with account_token := none } }

/-- C9: applying SetTargetState(Secured) while Running with target
Unsecured and no account token reverts the target to Unsecured, sends
exactly one Disconnect command, and replies with an error. -/
theorem c9_secured_without_token_reverts (d : Daemon)
    (h1 : d.state = DaemonExecutionState.Running)
    (h2 : d.target_state = TargetState.Unsecured)
    (h3 : d.settings.account_token = none) :
    (d.on_set_target_state TargetState.Secured).daemon.target_state =
      TargetState.Unsecured ∧
    (d.on_set_target_state TargetState.Secured).cmds =
      [TunnelCommand.Disconnect] ∧
    (d.on_set_target_state TargetState.Secured).replies =
      [Reply.result (Except.error ())] := by
  rw [Daemon.on_set_target_state, h1]
  rw [Daemon.set_target_state, h2]
  simp [Settings.get_account_token, h3, Daemon.set_target_state, noEffects,
    TunnelStateTransition.is_blocked, DaemonExecutionState.is_running]

/-- Witness for C9 at a concrete daemon with no account token. -/
theorem c9_secured_without_token_reverts_witness :
    sampleNoToken.state = DaemonExecutionState.Running ∧
    sampleNoToken.target_state = TargetState.Unsecured ∧
    sampleNoToken.settings.account_token = none ∧
    (sampleNoToken.on_set_target_state TargetState.Secured).daemon.target_state =
      TargetState.Unsecured ∧
    (sampleNoToken.on_set_target_state TargetState.Secured).cmds =
      [TunnelCommand.Disconnect] ∧
    (sampleNoToken.on_set_target_state TargetState.Secured).replies =
      [Reply.result (Except.error ())] := by
  have h := c9_secured_without_token_reverts sampleNoToken rfl rfl rfl
  exact ⟨rfl, rfl, rfl, h.1, h.2.1, h.2.2⟩

/-- C4: handling SetAccount(None) while the target is Secured, when the
stored token was set and persistence succeeds, moves the target to
Unsecured and sends exactly one Disconnect command (and in particular no
Connect command). -/
theorem c4_clear_account_while_secured (d : Daemon)
    (h1 : d.target_state = TargetState.Secured)
    (h2 : d.settings.account_token ≠ none) :
    (d.on_set_account true none).daemon.target_state = TargetState.Unsecured ∧
    (d.on_set_account true none).cmds = [TunnelCommand.Disconnect] := by
  have hne : (none : Option String) ≠ d.settings.account_token :=
    fun h => h2 h.symm
  simp [Daemon.on_set_account, Settings.set_account_token, hne,
    Daemon.set_target_state, h1, noEffects]

/-- Witness for C4 at a concrete daemon with a stored token. -/
theorem c4_clear_account_while_secured_witness :
    sampleDaemon.target_state = TargetState.Secured ∧
    sampleDaemon.settings.account_token ≠ none ∧
    (sampleDaemon.on_set_account true none).daemon.target_state =
      TargetState.Unsecured ∧
    (sampleDaemon.on_set_account true none).cmds =
      [TunnelCommand.Disconnect] := by
  have h := c4_clear_account_while_secured sampleDaemon rfl (by decide)
  exact ⟨rfl, by decide, h.1, h.2⟩

/-- C5: handling SetAllowLan(x) never sends a Connect command; it sends
exactly one AllowLan(x) command when the value changed and the write
succeeded, and no command when the value was unchanged. -/
theorem c5_set_allow_lan_never_connects (d : Daemon) (x saveOk : Bool) :
    (∀ p, TunnelCommand.Connect p ∉ (d.on_set_allow_lan saveOk x).cmds) ∧
    (x ≠ d.settings.allow_lan → saveOk = true →
      (d.on_set_allow_lan saveOk x).cmds = [TunnelCommand.AllowLan x]) ∧
    (x = d.settings.allow_lan → (d.on_set_allow_lan saveOk x).cmds = []) := by
  refine ⟨?_, ?_, ?_⟩
  · intro p
    by_cases hx : x = d.settings.allow_lan
    · simp [Daemon.on_set_allow_lan, Settings.set_allow_lan, hx, noEffects]
    · cases saveOk
      · simp [Daemon.on_set_allow_lan, Settings.set_allow_lan, hx, noEffects]
      · simp [Daemon.on_set_allow_lan, Settings.set_allow_lan, hx, noEffects]
  · intro hx hs
    subst hs
    simp [Daemon.on_set_allow_lan, Settings.set_allow_lan, hx, noEffects]
  · intro hx
    simp [Daemon.on_set_allow_lan, Settings.set_allow_lan, hx, noEffects]

/-- Witness for C5 at a concrete daemon: a changed value forwards one
AllowLan command, an unchanged value forwards nothing. -/
theorem c5_set_allow_lan_never_connects_witness :
    (true ≠ sampleDaemon.settings.allow_lan) ∧
    (sampleDaemon.on_set_allow_lan true true).cmds =
      [TunnelCommand.AllowLan true] ∧
    (sampleDaemon.on_set_allow_lan true false).cmds = [] :=
  ⟨by decide,
   (c5_set_allow_lan_never_connects sampleDaemon true true).2.1 (by decide) rfl,
   (c5_set_allow_lan_never_connects sampleDaemon false true).2.2 (by decide)⟩

/-- Counterexample to C3 as stated: at a concrete daemon whose allow-LAN
flag is false, a SetAllowLan(true) whose durable write fails takes the
error branch, which only logs; the reply list is empty, so the reply is
dropped rather than delivered. -/
theorem c3_counterexample_reply_dropped :
    (true ≠ sampleDaemon.settings.allow_lan) ∧
    (sampleDaemon.on_set_allow_lan false true).logs =
      ["Unable to save settings"] ∧
    (sampleDaemon.on_set_allow_lan false true).replies = [] := by
  refine ⟨by decide, ?_, ?_⟩ <;> rfl

/-- C3 amended: for every settings-mutating management command, when the
value changed and the durable write fails, the failure is logged, the
in-memory settings (indeed all daemon fields) are unchanged, no tunnel
command is sent, no settings broadcast is made, and the reply sink is
dropped without a reply. -/
theorem c3_persist_failure_drops_reply (d : Daemon) (t : Option String)
    (u : RelaySettings) (x y z : Bool) (m : Option Nat)
    (h1 : t ≠ d.settings.account_token)
    (h2 : u ≠ d.settings.relay_settings)
    (h3 : x ≠ d.settings.allow_lan)
    (h4 : y ≠ d.settings.auto_connect)
    (h5 : m ≠ d.settings.openvpn_mssfix)
    (h6 : z ≠ d.settings.enable_ipv6) :
    d.on_set_account false t =
      { (noEffects d) with logs := ["Unable to save settings"] } ∧
    d.on_update_relay_settings false u =
      { (noEffects d) with logs := ["Unable to save settings"] } ∧
    d.on_set_allow_lan false x =
      { (noEffects d) with logs := ["Unable to save settings"] } ∧
    d.on_set_auto_connect false y =
      { (noEffects d) with logs := ["Unable to save settings"] } ∧
    d.on_set_openvpn_mssfix false m =
      { (noEffects d) with logs := ["Unable to save settings"] } ∧
    d.on_set_enable_ipv6 false z =
      { (noEffects d) with logs := ["Unable to save settings"] } := by
  refine ⟨?_, ?_, ?_, ?_, ?_, ?_⟩ <;>
    simp [Daemon.on_set_account, Daemon.on_update_relay_settings,
      Daemon.on_set_allow_lan, Daemon.on_set_auto_connect,
      Daemon.on_set_openvpn_mssfix, Daemon.on_set_enable_ipv6,
      Settings.set_account_token, Settings.update_relay_settings,
      Settings.set_allow_lan, Settings.set_auto_connect,
      Settings.set_openvpn_mssfix, Settings.set_enable_ipv6,
      h1, h2, h3, h4, h5, h6, noEffects]

/-- Witness for the amended C3 at a concrete daemon, with a changed value
for each mutating command and a failing durable write. -/
theorem c3_persist_failure_drops_reply_witness :
    sampleDaemon.on_set_account false (some "0001") =
      { (noEffects sampleDaemon) with logs := ["Unable to save settings"] } ∧
    sampleDaemon.on_update_relay_settings false
        (RelaySettings.CustomTunnelEndpoint none) =
      { (noEffects sampleDaemon) with logs := ["Unable to save settings"] } ∧
    sampleDaemon.on_set_allow_lan false true =
      { (noEffects sampleDaemon) with logs := ["Unable to save settings"] } ∧
    sampleDaemon.on_set_auto_connect false true =
      { (noEffects sampleDaemon) with logs := ["Unable to save settings"] } ∧
    sampleDaemon.on_set_openvpn_mssfix false (some 1300) =
      { (noEffects sampleDaemon) with logs := ["Unable to save settings"] } ∧
    sampleDaemon.on_set_enable_ipv6 false true =
      { (noEffects sampleDaemon) with logs := ["Unable to save settings"] } :=
  c3_persist_failure_drops_reply sampleDaemon (some "0001")
    (RelaySettings.CustomTunnelEndpoint none) true true true (some 1300)
    (by decide) (by decide) (by decide) (by decide) (by decide) (by decide)

/-- C8: on Linux, the TALPID_DNS_MODULE value selects the DNS backend:
static-file selects StaticResolvConf, resolvconf selects Resolvconf, and
absence of the variable triggers detection, which tries Resolvconf first
and then StaticResolvConf. -/
theorem c8_dns_backend_selection (rOk sOk : Bool) :
    (sOk = true → DnsSettings.new (some "static-file") rOk sOk =
      Except.ok DnsSettings.StaticResolvConf) ∧
    (rOk = true → DnsSettings.new (some "resolvconf") rOk sOk =
      Except.ok DnsSettings.Resolvconf) ∧
    DnsSettings.new none rOk sOk =
      DnsSettings.with_detected_dns_manager rOk sOk ∧
    (rOk = true → DnsSettings.with_detected_dns_manager rOk sOk =
      Except.ok DnsSettings.Resolvconf) ∧
    (rOk = false → sOk = true → DnsSettings.with_detected_dns_manager rOk sOk =
      Except.ok DnsSettings.StaticResolvConf) := by
  refine ⟨?_, ?_, rfl, ?_, ?_⟩
  · intro h
    subst h
    cases rOk <;> decide
  · intro h
    subst h
    cases sOk <;> decide
  · intro h
    subst h
    cases sOk <;> decide
  · intro h1 h2
    subst h1
    subst h2
    decide

/-- Witness for C8 at concrete backend availabilities. -/
theorem c8_dns_backend_selection_witness :
    DnsSettings.new (some "static-file") true true =
      Except.ok DnsSettings.StaticResolvConf ∧
    DnsSettings.new (some "resolvconf") true true =
      Except.ok DnsSettings.Resolvconf ∧
    DnsSettings.new none false true =
      DnsSettings.with_detected_dns_manager false true ∧
    DnsSettings.with_detected_dns_manager true false =
      Except.ok DnsSettings.Resolvconf ∧
    DnsSettings.with_detected_dns_manager false true =
      Except.ok DnsSettings.StaticResolvConf :=
  ⟨(c8_dns_backend_selection true true).1 rfl,
   (c8_dns_backend_selection true true).2.1 rfl,
   (c8_dns_backend_selection false true).2.2.1,
   (c8_dns_backend_selection true false).2.2.2.1 rfl,
   (c8_dns_backend_selection false true).2.2.2.2 rfl rfl⟩
